import Mathlib

/-!
Verification of the descriptor-matching engine of
`node-detect-equipment-serverless` (`src/api/index.js`).

The engine is embedded shallowly:

* a **Descriptor** (one row of an OpenCV `cv.Mat` of type `CV_8U`, produced
  only by `deserializeDescriptors`) is a `List Nat` of byte values; a `Mat`
  is the list of its rows;
* the process-wide mutable object `templateFeatures` is an association list
  from category string to an association list from template name to `Mat`
  (JS objects iterate string keys in insertion order, and assignment to an
  existing key replaces the value in place — `aset` mirrors that);
* the filesystem is a function from file name to an `ArtifactFile`;
  `path.join(cacheDir, ...)` only prefixes a constant directory, so the
  embedding keys the filesystem by the file name `<type>_features.json`;
* `Buffer.from(base64Content, 'base64')` in Node never throws (it is a
  total decoder), so the codec is embedded from the decoded byte level on:
  `deserializeDescriptors` takes the decoded bytes;
* the only numeric subtlety is the ratio test `m.distance < 0.75 *
  n.distance`.  The code's `new cv.BFMatcher()` uses the default `NORM_L2`
  norm, whose distances are square roots; per the spec's numeric-semantics
  clause the comparison is taken over the reals, where
  `sqrt a < 0.75 * sqrt b  ↔  16 * a < 9 * b` for squared distances `a, b`,
  an exact integer comparison;
* stateful functions are embedded as explicit state passing and also return
  the number of artifact reads they performed, so that read-count claims
  are statable;
* the `try`/`catch` blocks of the source make the corresponding JS
  functions total on every modelled input; the embedding is accordingly
  total, with the `catch` branches appearing as ordinary result values.

Branches of the source that are unreachable for the modelled inputs are
dropped: the `CV_8U` conversion of the query (lines 190–203) and the
`CV_8U` check on cached templates (lines 211–214) cannot fire because every
`Mat` in the model comes from `deserializeDescriptors`, which always builds
`CV_8U` matrices.
-/

namespace DetectEquipment

/-- One ORB descriptor: a row of byte values (width 32 when produced by
`deserializeDescriptors`). -/
abbrev Desc : Type := List Nat

/-- An OpenCV matrix of descriptors: the list of its rows. -/
abbrev Mat : Type := List Desc

/-- Association-list lookup with JS-object key semantics
(`obj[k]`, `undefined` becomes `none`). -/
def alookup {α : Type} : List (String × α) → String → Option α
  | [], _ => none
  | (k', v) :: rest, k => if k' = k then some v else alookup rest k

/-- Association-list assignment with JS-object key semantics
(`obj[k] = v`): replace in place when the key exists, else append. -/
def aset {α : Type} : List (String × α) → String → α → List (String × α)
  | [], k, v => [(k, v)]
  | (k', v') :: rest, k, v =>
    if k' = k then (k, v) :: rest else (k', v') :: aset rest k v

/-- The state of the global `templateFeatures` object (line 47):
category string to template name to descriptor matrix. -/
abbrev TF : Type := List (String × List (String × Mat))

/-- The initial `templateFeatures` object (lines 47–53): five categories,
each an empty object. -/
def initialTemplateFeatures : TF :=
  [("summon/party_main", []), ("summon/party_sub", []),
   ("weapon/main", []), ("weapon/normal", []), ("chara", [])]

/-- One entry of the artifact's `descriptors_list`: `none` for a falsy
JSON value (`null` or the empty string, line 97), otherwise the bytes the
base64 string decodes to. -/
abbrev Blob : Type := Option (List Nat)

/-- A category's persisted cache artifact as the loader sees it.
`missing` is the `ENOENT` branch (line 118); `unreadable` is any other
read/`JSON.parse` failure caught at line 117; `parsed` carries the two
(possibly absent) fields checked at line 81. -/
inductive ArtifactFile : Type
  | missing : ArtifactFile
  | unreadable : ArtifactFile
  | parsed (templateNames : Option (List String))
           (descriptorsList : Option (List Blob)) : ArtifactFile

/-- The blob store: file name to artifact. -/
abbrev FS : Type := String → ArtifactFile

/-- Line 71: the artifact file name for a category. -/
def cacheFileName (equipmentType : String) : String :=
  equipmentType ++ "_features.json"

/-! ### Descriptor codec (`deserializeDescriptors`, lines 132–153) -/

/-- Split a byte list into `n` rows of 32 bytes (the
`cv.matFromArray(numDescriptors, 32, cv.CV_8U, data)` reinterpretation,
line 147). -/
def chunks32 : Nat → List Nat → List Desc
  | 0, _ => []
  | n + 1, l => l.take 32 :: chunks32 n (l.drop 32)

/-- `deserializeDescriptors` (lines 132–153), from the decoded byte level
on: throw when the byte length is not a multiple of the descriptor width
32 (line 136), return an empty matrix for an empty buffer (line 140), else
reinterpret as `length / 32` rows of 32 bytes. -/
def deserializeDescriptors (buffer : List Nat) : Except String Mat :=
  if buffer.length % 32 ≠ 0 then
    .error "Invalid descriptor buffer length"
  else
    .ok (chunks32 (buffer.length / 32) buffer)

/-- Whether an `Except` result is a success. -/
def exceptIsOk {α : Type} : Except String α → Bool
  | .ok _ => true
  | .error _ => false

/-! ### Cache loader (`loadFeaturesFromCache`, lines 56–128) -/

/-- The body of the per-entry loop (lines 93–114): a falsy descriptor
string, a deserialization error, or an empty deserialized matrix leaves
the accumulated entry object unchanged; otherwise the template is stored. -/
def entryStep (acc : List (String × Mat)) (nb : String × Blob) :
    List (String × Mat) :=
  match nb.2 with
  | none => acc
  | some bytes =>
    match deserializeDescriptors bytes with
    | .error _ => acc
    | .ok m => if m.isEmpty then acc else aset acc nb.1 m

/-- The per-entry loop over the parallel `(name, blob)` pairs. -/
def loadLoop (acc : List (String × Mat)) (pairs : List (String × Blob)) :
    List (String × Mat) :=
  pairs.foldl entryStep acc

/-- Whether `templateFeatures[equipmentType]` is absent or an empty object
(the check at lines 61 and 169/174: proceed only when
`Object.keys(...).length > 0` fails or the key is `undefined`). -/
def isEmptyAt (tf : TF) (ty : String) : Bool :=
  match alookup tf ty with
  | none => true
  | some entries => entries.isEmpty

/-- The part of `loadFeaturesFromCache` after the artifact has been read
(lines 79–127): validate the two parallel fields (line 81) and run the
per-entry loop into the (empty) entry object; on any failure leave the
entry object as it is. -/
def loadFromArtifact (a : ArtifactFile) (tf0 : TF) (ty : String) : TF :=
  match a with
  | .parsed (some names) (some blobs) =>
    if names.length = blobs.length then
      aset tf0 ty (loadLoop ((alookup tf0 ty).getD []) (names.zip blobs))
    else tf0
  | _ => tf0

/-- Lines 67–69: create the entry object when absent. -/
def ensureEntry (tf : TF) (ty : String) : TF :=
  match alookup tf ty with
  | none => aset tf ty []
  | some _ => tf

/-- `loadFeaturesFromCache` (lines 56–128) as a state transformer, also
returning how many artifact reads it performed (0 or 1).  Lines 61–64:
return immediately when the entry object exists and is non-empty.
Lines 67–69: create the entry object when absent (`ensureEntry`).
Lines 76–78: read the artifact (counted as the one read).  The rest is
`loadFromArtifact`. -/
def loadFeaturesFromCache (fs : FS) (tf : TF) (ty : String) : TF × Nat :=
  if isEmptyAt tf ty then
    (loadFromArtifact (fs (cacheFileName ty)) (ensureEntry tf ty) ty, 1)
  else (tf, 0)

/-! ### Matcher (`matchEquipment`, lines 164–256) -/

/-- Absolute difference of two byte values. -/
def adiff (a b : Nat) : Nat := (a - b) + (b - a)

/-- Squared Euclidean (`NORM_L2`) distance between two descriptor rows:
`new cv.BFMatcher()` (line 165) uses the default `NORM_L2` norm.  The
matcher's ratio comparison is stated on these squared values (see the
header comment). -/
def l2sq (a b : Desc) : Nat :=
  ((a.zip b).map (fun p => adiff p.1 p.2 * adiff p.1 p.2)).sum

/-- Number of set bits among the low 8 bits. -/
def popCount8 (n : Nat) : Nat :=
  ((List.range 8).filter (fun i => n.testBit i)).length

/-- Hamming distance between two descriptor rows (bitwise, bytewise).
This is the metric the specification prescribes for ORB descriptors; the
code's default-constructed `BFMatcher` does NOT use it (see `l2sq`). -/
def hammingDist (a b : Desc) : Nat :=
  ((a.zip b).map (fun p => popCount8 (Nat.xor p.1 p.2))).sum

/-- Insert into an ascending list of distances. -/
def insertAsc (n : Nat) : List Nat → List Nat
  | [] => [n]
  | x :: xs => if n ≤ x then n :: x :: xs else x :: insertAsc n xs

/-- Sort distances ascending; its first two elements are the nearest and
second-nearest distances that `knnMatch(..., 2)` returns (line 219). -/
def sortAsc : List Nat → List Nat
  | [] => []
  | n :: rest => insertAsc n (sortAsc rest)

/-- The ratio test for one query descriptor against one template matrix
(lines 223–232): `knnMatch` with `k = 2` yields fewer than two neighbours
when the template has fewer than two rows, in which case the descriptor is
not counted; otherwise the two nearest squared `NORM_L2` distances `d1 ≤
d2` pass iff `sqrt d1 < 0.75 * sqrt d2`, i.e. `16 * d1 < 9 * d2`. -/
def goodMatch (q : Desc) (t : Mat) : Bool :=
  match sortAsc (t.map (l2sq q)) with
  | d1 :: d2 :: _ => 16 * d1 < 9 * d2
  | _ => false

/-- `goodMatchesCount` for one template (lines 221–232): the number of
query descriptors passing the ratio test. -/
def goodMatchesCount (query : Mat) (t : Mat) : Nat :=
  query.countP (fun q => goodMatch q t)

/-- The ratio test as the specification words it (§4.4): Hamming
distances, `d1 < 0.75 * d2` i.e. `4 * d1 < 3 * d2`.  This definition
follows the spec's words, not the source, and exists only to be compared
against the source's `goodMatch`. -/
def hammingGoodMatch (q : Desc) (t : Mat) : Bool :=
  match sortAsc (t.map (hammingDist q)) with
  | d1 :: d2 :: _ => 4 * d1 < 3 * d2
  | _ => false

/-- Confidence under the spec's Hamming ratio test (spec §4.4); follows
the spec's words, for comparison with `goodMatchesCount`. -/
def hammingConfidence (query : Mat) (t : Mat) : Nat :=
  query.countP (fun q => hammingGoodMatch q t)

/-- One entry of the `matches` array (line 235). -/
structure MatchRes : Type where
  id : String
  confidence : Nat
deriving DecidableEq, Repr

/-- The template loop of `matchEquipment` (lines 205–247): skip empty
template matrices (line 207), push `(name, count)` when the count meets
the threshold (lines 234–235), and stop at the first such template when
`earlyReturn` is set (lines 236–238). -/
def collectMatches (query : Mat) (threshold : Nat) (earlyReturn : Bool) :
    List (String × Mat) → List MatchRes
  | [] => []
  | (name, t) :: rest =>
    if t.isEmpty then collectMatches query threshold earlyReturn rest
    else
      let c := goodMatchesCount query t
      if threshold ≤ c then
        ⟨name, c⟩ ::
          (if earlyReturn then [] else collectMatches query threshold earlyReturn rest)
      else collectMatches query threshold earlyReturn rest

/-- Stable insertion for the descending sort: an element moves past
exactly the elements of strictly greater confidence, so equal-confidence
elements keep their relative order.  This is the embedding of
`matches.sort((a, b) => b.confidence - a.confidence)` (line 254): the
comparator is consistent and ECMAScript's `Array.prototype.sort` is
stable, which determines the result uniquely. -/
def insertDesc (m : MatchRes) : List MatchRes → List MatchRes
  | [] => [m]
  | x :: xs => if m.confidence < x.confidence then x :: insertDesc m xs
               else m :: x :: xs

/-- Stable sort by confidence descending (line 254). -/
def sortDesc : List MatchRes → List MatchRes
  | [] => []
  | m :: rest => insertDesc m (sortDesc rest)

/-- The result of one `matchEquipment` call: the returned match list, the
`templateFeatures` state afterwards, and how many artifact reads
happened. -/
structure MatchOut : Type where
  result : List MatchRes
  tf : TF
  reads : Nat
deriving Repr

/-- The lazy-loading trigger of `matchEquipment` (lines 169–171): when
the category's entry object is absent or empty, run
`loadFeaturesFromCache`; the pair is the state afterwards and the number
of artifact reads. -/
def loadedState (fs : FS) (tf : TF) (ty : String) : TF × Nat :=
  if isEmptyAt tf ty then loadFeaturesFromCache fs tf ty else (tf, 0)

/-- `matchEquipment` (lines 164–256).  Lines 169–178: when the category's
entry object is absent or empty, run `loadFeaturesFromCache`
(`loadedState`) and return `[]` if it is still absent or empty.
Lines 181–184: empty query returns `[]`.  Then the template loop, the
stable descending sort, and `slice(0, top_n)`. -/
def matchEquipment (fs : FS) (tf : TF) (query : Mat) (ty : String)
    (threshold : Nat) (top_n : Nat) (earlyReturn : Bool) : MatchOut :=
  if isEmptyAt (loadedState fs tf ty).1 ty then
    ⟨[], (loadedState fs tf ty).1, (loadedState fs tf ty).2⟩
  else if query.isEmpty then
    ⟨[], (loadedState fs tf ty).1, (loadedState fs tf ty).2⟩
  else
    ⟨(sortDesc (collectMatches query threshold earlyReturn
        ((alookup (loadedState fs tf ty).1 ty).getD []))).take top_n,
     (loadedState fs tf ty).1, (loadedState fs tf ty).2⟩

/-- The "included templates" of spec §4.4: enumeration order, empty
reference matrices skipped, a template included iff its good-match count
meets the threshold. -/
def includedSpec (query : Mat) (threshold : Nat)
    (entries : List (String × Mat)) : List MatchRes :=
  entries.filterMap (fun e =>
    if e.2.isEmpty then none
    else
      let c := goodMatchesCount query e.2
      if threshold ≤ c then some ⟨e.1, c⟩ else none)

/-- The reference set an entry loop over a well-formed artifact produces,
as spec §4.3 words it: each `(name, blob)` pair contributes iff its blob
is present, deserializes, and is non-empty. -/
def loadedSpec (pairs : List (String × Blob)) : List (String × Mat) :=
  pairs.filterMap (fun nb =>
    match nb.2 with
    | none => none
    | some bytes =>
      match deserializeDescriptors bytes with
      | .error _ => none
      | .ok m => if m.isEmpty then none else some (nb.1, m))

/-! ### Concurrency model for first-use loading

`loadFeaturesFromCache` is an `async` function whose only suspension
points are the `await fs.access` / `await fs.readFile` pair (lines
77–78).  Everything before (the loaded check of lines 61–64 and the
entry-object creation of lines 67–69) runs synchronously, and everything
after (parse, validation, the entry loop) runs synchronously once the
read completes.  A concurrent caller is therefore a two-phase machine:
phase one runs the synchronous prefix and either finishes (already
loaded) or issues the artifact read and suspends; phase two consumes the
read and runs the rest.  A schedule interleaves the phases of two
callers on the shared `templateFeatures` state. -/

/-- Where a concurrent caller of `loadFeaturesFromCache` is in its run. -/
inductive LPhase : Type
  | idle : LPhase
  | waitingRead : LPhase
  | finished : LPhase
deriving DecidableEq, Repr

/-- Shared state of two concurrent callers: the `templateFeatures`
object, the number of artifact reads issued so far, and each caller's
phase. -/
structure ConcState : Type where
  tf : TF
  reads : Nat
  p1 : LPhase
  p2 : LPhase
deriving Repr

/-- One caller's next step of `loadFeaturesFromCache`: from `idle`, run
the synchronous prefix (lines 61–69) — finish at once when the entry
object is non-empty, else create it, issue the artifact read and suspend;
from `waitingRead`, run the post-read part (lines 79–127). -/
def callerStep (fs : FS) (ty : String) (p : LPhase) (tf : TF)
    (reads : Nat) : LPhase × TF × Nat :=
  match p with
  | .idle =>
    if isEmptyAt tf ty then (.waitingRead, ensureEntry tf ty, reads + 1)
    else (.finished, tf, reads)
  | .waitingRead =>
    (.finished, loadFromArtifact (fs (cacheFileName ty)) tf ty, reads)
  | .finished => (.finished, tf, reads)

/-- Run one scheduled step: `true` steps the first caller, `false` the
second. -/
def schedStep (fs : FS) (ty : String) (s : ConcState) (who : Bool) :
    ConcState :=
  if who then
    let r := callerStep fs ty s.p1 s.tf s.reads
    ⟨r.2.1, r.2.2, r.1, s.p2⟩
  else
    let r := callerStep fs ty s.p2 s.tf s.reads
    ⟨r.2.1, r.2.2, s.p1, r.1⟩

/-- Run a schedule of interleaved caller steps. -/
def runSched (fs : FS) (ty : String) (sched : List Bool) (s : ConcState) :
    ConcState :=
  sched.foldl (schedStep fs ty) s

/-! ### Shared concrete objects for witnesses and counterexamples -/

/-- A blob store with no artifacts at all. -/
def fsMissing : FS := fun _ => ArtifactFile.missing

/-- A blob store whose `chara` artifact is present and well-formed but
holds zero entries. -/
def fsZeroChara : FS := fun f =>
  if f = "chara_features.json" then ArtifactFile.parsed (some []) (some [])
  else ArtifactFile.missing

/-- A blob store whose `weapon/main` artifact has parallel fields of
unequal length (one name, zero blobs). -/
def fsMismatch : FS := fun f =>
  if f = "weapon/main_features.json" then
    ArtifactFile.parsed (some ["a"]) (some [])
  else ArtifactFile.missing

/-- The all-zero 32-byte descriptor. -/
def qZero : Desc := List.replicate 32 0

/-- Reference descriptor `[16, 0, …]`: Hamming distance 1 from `qZero`,
squared `L2` distance 256. -/
def descA : Desc := 16 :: List.replicate 31 0

/-- Reference descriptor `[15, 1, 0, …]`: Hamming distance 5 from
`qZero`, squared `L2` distance 226. -/
def descB : Desc := 15 :: 1 :: List.replicate 30 0

/-- State with one category holding one template whose two reference
descriptors separate the Hamming ratio test from the `L2` one. -/
def tfRatio : TF := [("weapon/main", [("T", [descA, descB])])]

/-- A far-away descriptor (all bytes 255). -/
def descFar : Desc := List.replicate 32 255

/-- Query descriptor `[100, 0, …]`. -/
def qHundred : Desc := 100 :: List.replicate 31 0

/-- Template matrix against which `qZero` passes the ratio test but
`qHundred` does not (its two distances tie). -/
def matX : Mat := [List.replicate 32 0, 200 :: List.replicate 31 0]

/-- Template matrix against which both `qZero` and `qHundred` pass the
ratio test. -/
def matY : Mat := [List.replicate 32 0, descFar]

/-- State enumerating template `X` (confidence 1 on `[qZero, qHundred]`)
before template `Y` (confidence 2). -/
def tfXY : TF := [("weapon/main", [("X", matX), ("Y", matY)])]

/-- Fifteen query descriptors `[4i, 0, …]`, `i = 0, …, 14`. -/
def quinceQ : Mat := (List.range 15).map (fun i => (4 * i) :: List.replicate 31 0)

/-- Template matrix giving confidence 15 on `quinceQ`. -/
def matConf15 : Mat := [List.replicate 32 0, descFar]

/-- Template matrix giving confidence 12 on `quinceQ` (queries
`i = 12, 13, 14` fail the ratio test against it). -/
def matConf12 : Mat := [List.replicate 32 0, 110 :: List.replicate 31 0]

/-- State enumerating template `A` (confidence 15) before `B`
(confidence 12). -/
def tfAB : TF := [("weapon/main", [("A", matConf15), ("B", matConf12)])]

/-! ### Association-list and cache-state lemmas -/

theorem alookup_aset_self {α : Type} (l : List (String × α)) (k : String)
    (v : α) : alookup (aset l k v) k = some v := by
  induction l with
  | nil => simp [aset, alookup]
  | cons hd rest ih =>
    obtain ⟨k', v'⟩ := hd
    by_cases h : k' = k
    · simp [aset, alookup, h]
    · simp [aset, alookup, h, ih]

theorem alookup_append_none {α : Type} (l1 l2 : List (String × α))
    (k : String) (h : alookup l1 k = none) :
    alookup (l1 ++ l2) k = alookup l2 k := by
  induction l1 with
  | nil => simp
  | cons hd rest ih =>
    obtain ⟨k', v'⟩ := hd
    by_cases hk : k' = k
    · simp [alookup, hk] at h
    · simp [alookup, hk] at h ⊢
      exact ih h

theorem aset_of_alookup_none {α : Type} (l : List (String × α))
    (k : String) (v : α) (h : alookup l k = none) :
    aset l k v = l ++ [(k, v)] := by
  induction l with
  | nil => simp [aset]
  | cons hd rest ih =>
    obtain ⟨k', v'⟩ := hd
    by_cases hk : k' = k
    · simp [alookup, hk] at h
    · simp [alookup, hk] at h
      simp [aset, hk, ih h]

theorem getD_nil_of_isEmptyAt (tf : TF) (ty : String)
    (h : isEmptyAt tf ty = true) : (alookup tf ty).getD [] = [] := by
  unfold isEmptyAt at h
  cases ha : alookup tf ty with
  | none => simp
  | some e =>
    rw [ha] at h
    simp [List.isEmpty_iff.1 h]

theorem alookup_ensureEntry (tf : TF) (ty : String)
    (h : isEmptyAt tf ty = true) :
    alookup (ensureEntry tf ty) ty = some [] := by
  unfold isEmptyAt at h
  unfold ensureEntry
  cases ha : alookup tf ty with
  | none => simp [alookup_aset_self]
  | some e =>
    rw [ha] at h
    simp [ha, List.isEmpty_iff.1 h]

theorem load_of_loaded (fs : FS) (tf : TF) (ty : String)
    (h : isEmptyAt tf ty = false) :
    loadFeaturesFromCache fs tf ty = (tf, 0) := by
  simp [loadFeaturesFromCache, h]

theorem load_reads_one (fs : FS) (tf : TF) (ty : String)
    (h : isEmptyAt tf ty = true) :
    (loadFeaturesFromCache fs tf ty).2 = 1 := by
  simp [loadFeaturesFromCache, h]

/-- A load whose artifact is missing or has parallel fields of unequal
length leaves the category's entry object present and empty. -/
theorem load_bad_artifact (fs : FS) (tf : TF) (ty : String)
    (hE : isEmptyAt tf ty = true)
    (hB : fs (cacheFileName ty) = ArtifactFile.missing ∨
      ∃ ns bs, fs (cacheFileName ty) = ArtifactFile.parsed (some ns) (some bs) ∧
        ns.length ≠ bs.length) :
    alookup (loadFeaturesFromCache fs tf ty).1 ty = some [] := by
  unfold loadFeaturesFromCache
  rw [hE]
  simp only [if_true]
  rcases hB with h | ⟨ns, bs, h, hlen⟩ <;> rw [h] <;> unfold loadFromArtifact
  · exact alookup_ensureEntry tf ty hE
  · simp only [hlen, if_false]
    exact alookup_ensureEntry tf ty hE

theorem isEmptyAt_of_alookup_nil (tf : TF) (ty : String)
    (h : alookup tf ty = some []) : isEmptyAt tf ty = true := by
  simp [isEmptyAt, h]

/-! ### Sorting lemmas: the descending confidence sort is sorted and
stable -/

theorem mem_insertDesc {y m : MatchRes} {l : List MatchRes} :
    y ∈ insertDesc m l ↔ y = m ∨ y ∈ l := by
  induction l with
  | nil => simp [insertDesc]
  | cons x xs ih =>
    unfold insertDesc
    split
    · rw [List.mem_cons, ih, List.mem_cons]
      tauto
    · simp [List.mem_cons]

theorem pairwise_insertDesc (m : MatchRes) (l : List MatchRes)
    (h : l.Pairwise (fun a b => b.confidence ≤ a.confidence)) :
    (insertDesc m l).Pairwise (fun a b => b.confidence ≤ a.confidence) := by
  induction l with
  | nil => simp [insertDesc]
  | cons x xs ih =>
    rw [List.pairwise_cons] at h
    obtain ⟨hx, hxs⟩ := h
    unfold insertDesc
    split
    case isTrue hlt =>
      rw [List.pairwise_cons]
      refine ⟨?_, ih hxs⟩
      intro y hy
      rcases mem_insertDesc.1 hy with rfl | hy'
      · exact Nat.le_of_lt hlt
      · exact hx y hy'
    case isFalse hge =>
      rw [List.pairwise_cons]
      refine ⟨?_, List.pairwise_cons.2 ⟨hx, hxs⟩⟩
      intro y hy
      rcases List.mem_cons.1 hy with rfl | hy'
      · exact Nat.le_of_not_lt hge
      · exact Nat.le_trans (hx y hy') (Nat.le_of_not_lt hge)

theorem pairwise_sortDesc (l : List MatchRes) :
    (sortDesc l).Pairwise (fun a b => b.confidence ≤ a.confidence) := by
  induction l with
  | nil => simp [sortDesc]
  | cons m rest ih => exact pairwise_insertDesc m (sortDesc rest) ih

theorem filter_insertDesc_eq (m : MatchRes) (l : List MatchRes) (c : Nat)
    (h : m.confidence = c) :
    (insertDesc m l).filter (fun v => v.confidence == c) =
      m :: l.filter (fun v => v.confidence == c) := by
  induction l with
  | nil => simp [insertDesc, List.filter, h]
  | cons x xs ih =>
    unfold insertDesc
    split
    case isTrue hlt =>
      have hxc : x.confidence ≠ c := by omega
      simp only [List.filter_cons]
      simp [hxc, ih]
    case isFalse hge =>
      simp [List.filter_cons, h]

theorem filter_insertDesc_ne (m : MatchRes) (l : List MatchRes) (c : Nat)
    (h : m.confidence ≠ c) :
    (insertDesc m l).filter (fun v => v.confidence == c) =
      l.filter (fun v => v.confidence == c) := by
  induction l with
  | nil => simp [insertDesc, List.filter_cons, h]
  | cons x xs ih =>
    unfold insertDesc
    split
    case isTrue hlt => simp [List.filter_cons, ih]
    case isFalse hge => simp [List.filter_cons, h]

/-- Stability of the embedded `Array.prototype.sort`: for every
confidence value, the elements carrying it keep their relative
(enumeration) order. -/
theorem filter_sortDesc (l : List MatchRes) (c : Nat) :
    (sortDesc l).filter (fun v => v.confidence == c) =
      l.filter (fun v => v.confidence == c) := by
  induction l with
  | nil => rfl
  | cons m rest ih =>
    show (insertDesc m (sortDesc rest)).filter _ = _
    by_cases h : m.confidence = c
    · rw [filter_insertDesc_eq m _ c h, ih]
      simp [List.filter_cons, h]
    · rw [filter_insertDesc_ne m _ c h, ih]
      simp [List.filter_cons, h]

/-! ### The template loop without early exit is the spec's inclusion
filter -/

theorem includedSpec_cons (q : Mat) (thr : Nat) (name : String) (t : Mat)
    (rest : List (String × Mat)) :
    includedSpec q thr ((name, t) :: rest) =
      if t.isEmpty then includedSpec q thr rest
      else if thr ≤ goodMatchesCount q t then
        (⟨name, goodMatchesCount q t⟩ : MatchRes) :: includedSpec q thr rest
      else includedSpec q thr rest := by
  by_cases h1 : t.isEmpty
  · have ht : t = [] := List.isEmpty_iff.1 h1
    subst ht
    simp [includedSpec, List.filterMap_cons]
  · have ht : ¬(t = []) := by simpa [List.isEmpty_iff] using h1
    by_cases h2 : thr ≤ goodMatchesCount q t <;>
      simp [includedSpec, List.filterMap_cons, h1, ht, h2]

theorem collect_eq_included (q : Mat) (thr : Nat) :
    ∀ l : List (String × Mat),
      collectMatches q thr false l = includedSpec q thr l := by
  intro l
  induction l with
  | nil => rfl
  | cons e rest ih =>
    obtain ⟨name, t⟩ := e
    rw [includedSpec_cons]
    by_cases h1 : t.isEmpty
    · simp [collectMatches, h1, ih]
    · by_cases h2 : thr ≤ goodMatchesCount q t
      · simp [collectMatches, h1, h2, ih]
      · simp [collectMatches, h1, h2, ih]

/-! ### Codec lemma: the reinterpretation splits exactly -/

theorem chunks32_spec :
    ∀ (n : Nat) (l : List Nat), l.length = 32 * n →
      (chunks32 n l).length = n ∧ (∀ d ∈ chunks32 n l, d.length = 32) ∧
        (chunks32 n l).flatten = l := by
  intro n
  induction n with
  | zero =>
    intro l h
    have hl : l = [] := List.length_eq_zero.1 (by omega)
    subst hl
    exact ⟨rfl, by simp [chunks32], by simp [chunks32]⟩
  | succ n ih =>
    intro l h
    have htake : (l.take 32).length = 32 := by
      rw [List.length_take]
      omega
    have hdrop : (l.drop 32).length = 32 * n := by
      rw [List.length_drop]
      omega
    obtain ⟨h1, h2, h3⟩ := ih (l.drop 32) hdrop
    refine ⟨by simp [chunks32, h1], ?_, ?_⟩
    · intro d hd
      rcases List.mem_cons.1 hd with rfl | hd'
      · exact htake
      · exact h2 d hd'
    · show (l.take 32 :: chunks32 n (l.drop 32)).flatten = l
      rw [List.flatten_cons, h3, List.take_append_drop]

/-! ### Loader-loop lemma: the loop is the spec's per-entry filter -/

theorem loadLoop_acc (pairs : List (String × Blob)) :
    ∀ acc : List (String × Mat),
      (∀ nb ∈ pairs, alookup acc nb.1 = none) →
      (pairs.map Prod.fst).Nodup →
      loadLoop acc pairs = acc ++ loadedSpec pairs := by
  induction pairs with
  | nil => intro acc _ _; simp [loadLoop, loadedSpec]
  | cons nb rest ih =>
    intro acc hfresh hnd
    obtain ⟨hnb, hrest⟩ := by
      rw [List.map_cons, List.nodup_cons] at hnd
      exact hnd
    have hstep : loadLoop acc (nb :: rest) = loadLoop (entryStep acc nb) rest := rfl
    rw [hstep]
    cases hb : nb.2 with
    | none =>
      have hes : entryStep acc nb = acc := by simp [entryStep, hb]
      rw [hes, ih acc (fun x hx => hfresh x (List.mem_cons_of_mem nb hx)) hrest]
      simp [loadedSpec, List.filterMap_cons, hb]
    | some bytes =>
      cases hdes : deserializeDescriptors bytes with
      | error e =>
        have hes : entryStep acc nb = acc := by simp [entryStep, hb, hdes]
        rw [hes, ih acc (fun x hx => hfresh x (List.mem_cons_of_mem nb hx)) hrest]
        simp [loadedSpec, List.filterMap_cons, hb, hdes]
      | ok m =>
        by_cases hm : m.isEmpty
        · have hm' : m = [] := List.isEmpty_iff.1 hm
          have hes : entryStep acc nb = acc := by simp [entryStep, hb, hdes, hm]
          rw [hes, ih acc (fun x hx => hfresh x (List.mem_cons_of_mem nb hx)) hrest]
          simp [loadedSpec, List.filterMap_cons, hb, hdes, hm']
        · have hacc : alookup acc nb.1 = none := hfresh nb (List.mem_cons_self nb rest)
          have hes : entryStep acc nb = acc ++ [(nb.1, m)] := by
            simp only [entryStep, hb, hdes, hm, if_false]
            exact aset_of_alookup_none acc nb.1 m hacc
          have hfresh' : ∀ x ∈ rest, alookup (acc ++ [(nb.1, m)]) x.1 = none := by
            intro x hx
            have hx1 : alookup acc x.1 = none := hfresh x (List.mem_cons_of_mem nb hx)
            rw [alookup_append_none acc _ x.1 hx1]
            have hne : nb.1 ≠ x.1 := by
              intro hcontra
              exact hnb (hcontra ▸ List.mem_map_of_mem Prod.fst hx)
            simp [alookup, hne]
          rw [hes, ih (acc ++ [(nb.1, m)]) hfresh' hrest]
          have hm' : ¬(m = []) := by simpa [List.isEmpty_iff] using hm
          simp [loadedSpec, List.filterMap_cons, hb, hdes, hm']

/-! ### Claim C1: idempotence of the lazy load -/

/-- Claim C1 counterexample: with the `chara` artifact present,
well-formed and holding zero entries, the first `loadFeaturesFromCache`
performs one artifact read and leaves the category's entry object empty —
and a second call performs a second artifact read, because the code
treats an empty entry object as not-loaded (line 61).  The claim's
"exactly one artifact read for N calls, including when the first load
produced zero usable entries" is therefore false on the code. -/
theorem C1_counterexample :
    (loadFeaturesFromCache fsZeroChara initialTemplateFeatures "chara").2 = 1 ∧
    alookup (loadFeaturesFromCache fsZeroChara initialTemplateFeatures
      "chara").1 "chara" = some [] ∧
    (loadFeaturesFromCache fsZeroChara
      (loadFeaturesFromCache fsZeroChara initialTemplateFeatures "chara").1
      "chara").2 = 1 := by
  refine ⟨by decide, by decide, by decide⟩

/-- Claim C1 (amended): `loadFeaturesFromCache` is idempotent for a
category whose entry object is non-empty — a later call performs no
artifact read and returns the state unchanged (hence identical entries);
but a category whose entry object is absent or empty (in particular one
whose load produced zero usable entries) triggers an artifact read on
every call. -/
theorem C1_amended_idempotent :
    (∀ (fs : FS) (tf : TF) (ty : String) (e : List (String × Mat)),
        alookup tf ty = some e → e ≠ [] →
        loadFeaturesFromCache fs tf ty = (tf, 0)) ∧
    (∀ (fs : FS) (tf : TF) (ty : String),
        isEmptyAt tf ty = true → (loadFeaturesFromCache fs tf ty).2 = 1) := by
  constructor
  · intro fs tf ty e he hne
    apply load_of_loaded
    have hb : e.isEmpty = false := by
      cases e with
      | nil => exact absurd rfl hne
      | cons a as => rfl
    simp [isEmptyAt, he, hb]
  · intro fs tf ty h
    exact load_reads_one fs tf ty h

/-- Claim C1 witness: a loaded category is returned untouched with zero
reads; an empty category is read (again) on every call. -/
theorem C1_witness :
    loadFeaturesFromCache fsMissing tfRatio "weapon/main" = (tfRatio, 0) ∧
    (loadFeaturesFromCache fsZeroChara initialTemplateFeatures "chara").2 = 1 := by
  constructor
  · exact C1_amended_idempotent.1 fsMissing tfRatio "weapon/main"
      [("T", [descA, descB])] (by decide) (by decide)
  · exact C1_amended_idempotent.2 fsZeroChara initialTemplateFeatures "chara"
      (by decide)

/-! ### Claim C5: the codec's failure condition and shape -/

/-- Claim C5: `deserializeDescriptors` succeeds iff the decoded byte
length is a multiple of the descriptor width 32 (the base64 layer,
Node's `Buffer.from`, is a total decoder, so at the byte level this is
the whole failure condition); an empty buffer yields the empty
collection, not an error; a successful decode yields `length / 32`
descriptors of 32 bytes each whose concatenation is the input buffer. -/
theorem C5_deserialize_spec (buffer : List Nat) :
    (exceptIsOk (deserializeDescriptors buffer) = true ↔
      buffer.length % 32 = 0) ∧
    (buffer = [] → deserializeDescriptors buffer = Except.ok []) ∧
    (∀ r, deserializeDescriptors buffer = Except.ok r →
      r.length = buffer.length / 32 ∧ (∀ d ∈ r, d.length = 32) ∧
        r.flatten = buffer) := by
  refine ⟨?_, ?_, ?_⟩
  · by_cases h : buffer.length % 32 = 0 <;>
      simp [deserializeDescriptors, h, exceptIsOk]
  · intro h
    subst h
    rfl
  · intro r hr
    by_cases h : buffer.length % 32 = 0
    · simp only [deserializeDescriptors, h, ne_eq, not_true_eq_false,
        if_false, not_false_eq_true, if_neg, Except.ok.injEq] at hr
      have hlen : 32 * (buffer.length / 32) = buffer.length :=
        Nat.mul_div_cancel' (Nat.dvd_of_mod_eq_zero h)
      obtain ⟨h1, h2, h3⟩ :=
        chunks32_spec (buffer.length / 32) buffer hlen.symm
      subst hr
      exact ⟨h1, h2, h3⟩
    · simp [deserializeDescriptors, h] at hr

/-- Claim C5 witness: a 64-byte buffer splits into two 32-byte
descriptors; the empty buffer decodes to the empty collection. -/
theorem C5_witness :
    exceptIsOk (deserializeDescriptors (List.replicate 64 7)) = true ∧
    deserializeDescriptors ([] : List Nat) = Except.ok [] ∧
    ([List.replicate 32 7, List.replicate 32 7] : Mat).length =
      (List.replicate 64 7 : List Nat).length / 32 := by
  refine ⟨?_, ?_, ?_⟩
  · exact (C5_deserialize_spec (List.replicate 64 7)).1.mpr (by decide)
  · exact (C5_deserialize_spec []).2.1 rfl
  · exact ((C5_deserialize_spec (List.replicate 64 7)).2.2
      [List.replicate 32 7, List.replicate 32 7] (by rfl)).1

/-! ### Claim C6: the empty query short-circuits -/

/-- Claim C6: for every category and state, matching an empty query
collection returns an empty match list (no descriptor comparison is
reachable — the function returns before the template loop), and
decoding the empty blob yields exactly that empty collection. -/
theorem C6_empty_query (fs : FS) (tf : TF) (ty : String) (thr topn : Nat)
    (early : Bool) :
    (matchEquipment fs tf [] ty thr topn early).result = [] ∧
    deserializeDescriptors [] = Except.ok [] := by
  constructor
  · unfold matchEquipment
    by_cases h : isEmptyAt (loadedState fs tf ty).1 ty <;> simp [h]
  · rfl

/-! ### Claim C7: failed loads yield zero entries and empty matches -/

/-- Claim C7: when a category's artifact is missing (`ENOENT`) or has
parallel fields of unequal length, the load completes normally (the
embedding of the `try`/`catch` makes it total) and leaves the category
with zero entries; every subsequent match against that category returns
`[]` for any query — each such match re-attempts the load, which fails
the same way. -/
theorem C7_failed_load (fs : FS) (tf : TF) (ty : String)
    (hE : isEmptyAt tf ty = true)
    (hB : fs (cacheFileName ty) = ArtifactFile.missing ∨
      ∃ ns bs, fs (cacheFileName ty) = ArtifactFile.parsed (some ns) (some bs) ∧
        ns.length ≠ bs.length) :
    alookup (loadFeaturesFromCache fs tf ty).1 ty = some [] ∧
    ∀ (q : Mat) (thr topn : Nat) (early : Bool),
      (matchEquipment fs (loadFeaturesFromCache fs tf ty).1 q ty thr topn
        early).result = [] := by
  have h1 := load_bad_artifact fs tf ty hE hB
  refine ⟨h1, ?_⟩
  intro q thr topn early
  have hE1 : isEmptyAt (loadFeaturesFromCache fs tf ty).1 ty = true :=
    isEmptyAt_of_alookup_nil _ _ h1
  have h2 := load_bad_artifact fs (loadFeaturesFromCache fs tf ty).1 ty hE1 hB
  have hE2 : isEmptyAt
      (loadFeaturesFromCache fs (loadFeaturesFromCache fs tf ty).1 ty).1 ty =
      true := isEmptyAt_of_alookup_nil _ _ h2
  unfold matchEquipment loadedState
  simp [hE1, hE2]

/-- Claim C7 witness: a missing `chara` artifact and a `weapon/main`
artifact with mismatched parallel fields both yield an empty entry
object and empty match results. -/
theorem C7_witness :
    alookup (loadFeaturesFromCache fsMissing initialTemplateFeatures
      "chara").1 "chara" = some [] ∧
    (matchEquipment fsMissing
      (loadFeaturesFromCache fsMissing initialTemplateFeatures "chara").1
      [qZero] "chara" 10 3 false).result = [] ∧
    (matchEquipment fsMismatch
      (loadFeaturesFromCache fsMismatch initialTemplateFeatures
        "weapon/main").1 [qZero] "weapon/main" 10 3 false).result = [] := by
  refine ⟨?_, ?_, ?_⟩
  · exact (C7_failed_load fsMissing initialTemplateFeatures "chara"
      (by decide) (Or.inl rfl)).1
  · exact (C7_failed_load fsMissing initialTemplateFeatures "chara"
      (by decide) (Or.inl rfl)).2 [qZero] 10 3 false
  · exact (C7_failed_load fsMismatch initialTemplateFeatures "weapon/main"
      (by decide) (Or.inr ⟨["a"], [], rfl, by decide⟩)).2 [qZero] 10 3 false

/-! ### Claim C2: the ratio test's metric -/

/-- Claim C2 evaluation at the failing input: the specification (and the
claim) prescribe the Hamming metric for the ratio test, but line 165's
`new cv.BFMatcher()` uses OpenCV's default `NORM_L2` norm.  For query
`qZero` against template `T` with reference set `[descA, descB]`:
Hamming distances are 1 (to `descA`) and 5 (to `descB`), the spec's test
passes (`1 < 0.75 * 5`), so `confidence(T) = 1 ≥ threshold 1` and the
claim requires `T` in the results; under the code's `L2` metric the
nearest neighbour is `descB` (`√226 < √256`) and the test fails
(`√226 ≥ 0.75 * √256`, i.e. `16 * 226 ≥ 9 * 256`), so the code computes
confidence 0 and returns no matches. -/
theorem C2_code_eval :
    (matchEquipment fsMissing tfRatio [qZero] "weapon/main" 1 3
      false).result = [] ∧
    goodMatchesCount [qZero] [descA, descB] = 0 ∧
    hammingConfidence [qZero] [descA, descB] = 1 ∧
    hammingDist qZero descA = 1 ∧ hammingDist qZero descB = 5 ∧
    l2sq qZero descA = 256 ∧ l2sq qZero descB = 226 := by
  refine ⟨by decide, by decide, by decide, by decide, by decide, by decide,
    by decide⟩

/-! ### Claim C3: ranking, stability, truncation -/

/-- Claim C3: for a non-empty query and `earlyReturn` unset, the match
result is exactly the included templates (spec §4.4: non-empty reference
sets whose confidence meets the threshold, in enumeration order), stably
sorted by confidence descending and truncated to `top_n`: the result
equals the take, it is sorted (pairwise descending confidences), the sort
keeps equal-confidence templates in enumeration order, and the result has
at most `top_n` entries. -/
theorem C3_sorted_ranked (fs : FS) (tf : TF) (q : Mat) (ty : String)
    (thr topn : Nat) (hq : q ≠ []) :
    (matchEquipment fs tf q ty thr topn false).result =
      (sortDesc (includedSpec q thr
        ((alookup (loadedState fs tf ty).1 ty).getD []))).take topn ∧
    (matchEquipment fs tf q ty thr topn false).result.Pairwise
      (fun a b => b.confidence ≤ a.confidence) ∧
    (∀ c, (sortDesc (includedSpec q thr
        ((alookup (loadedState fs tf ty).1 ty).getD []))).filter
          (fun v => v.confidence == c) =
      (includedSpec q thr
        ((alookup (loadedState fs tf ty).1 ty).getD [])).filter
          (fun v => v.confidence == c)) ∧
    (matchEquipment fs tf q ty thr topn false).result.length ≤ topn := by
  have hqe : q.isEmpty = false := by
    cases q with
    | nil => exact absurd rfl hq
    | cons a as => rfl
  have hres : (matchEquipment fs tf q ty thr topn false).result =
      (sortDesc (includedSpec q thr
        ((alookup (loadedState fs tf ty).1 ty).getD []))).take topn := by
    by_cases h : isEmptyAt (loadedState fs tf ty).1 ty
    · have hent : (alookup (loadedState fs tf ty).1 ty).getD [] = [] :=
        getD_nil_of_isEmptyAt _ _ h
      simp [matchEquipment, h, hent, includedSpec, sortDesc]
    · simp [matchEquipment, h, hqe, collect_eq_included]
  refine ⟨hres, ?_, fun c => filter_sortDesc _ c, ?_⟩
  · rw [hres]
    exact (pairwise_sortDesc _).sublist (List.take_sublist _ _)
  · rw [hres, List.length_take]
    exact Nat.min_le_left _ _

/-- Claim C3 witness: the claim's own example — templates `A`
(confidence 15) and `B` (confidence 12), both at least threshold 10,
yield `[A, B]` in that order under `top_n = 3`. -/
theorem C3_witness :
    (matchEquipment fsMissing tfAB quinceQ "weapon/main" 10 3
      false).result =
      (sortDesc (includedSpec quinceQ 10
        ((alookup (loadedState fsMissing tfAB "weapon/main").1
          "weapon/main").getD []))).take 3 ∧
    (matchEquipment fsMissing tfAB quinceQ "weapon/main" 10 3
      false).result =
      [⟨"A", 15⟩, ⟨"B", 12⟩] := by
  refine ⟨(C3_sorted_ranked fsMissing tfAB quinceQ "weapon/main" 10 3
    (by decide)).1, by decide⟩

/-! ### Claim C4: early exit -/

/-- With `earlyReturn` set, the template loop produces exactly the first
qualifying template, for every continuation of the enumeration. -/
theorem collect_early (q : Mat) (thr : Nat) (x : String × Mat)
    (post : List (String × Mat)) :
    ∀ pre : List (String × Mat),
      (∀ e ∈ pre, ¬e.2.isEmpty → goodMatchesCount q e.2 < thr) →
      ¬x.2.isEmpty → thr ≤ goodMatchesCount q x.2 →
      collectMatches q thr true (pre ++ x :: post) =
        [⟨x.1, goodMatchesCount q x.2⟩] := by
  intro pre
  induction pre with
  | nil =>
    intro _ hx hxc
    obtain ⟨nm, t⟩ := x
    simp only [Bool.not_eq_true] at hx
    simp [collectMatches, hx, hxc]
  | cons e rest ih =>
    intro hpre hx hxc
    obtain ⟨nm, t⟩ := e
    by_cases he : t.isEmpty
    · simp only [List.cons_append]
      simp [collectMatches, he]
      exact ih (fun z hz => hpre z (List.mem_cons_of_mem _ hz)) hx hxc
    · have hlt : goodMatchesCount q t < thr :=
        hpre (nm, t) (List.mem_cons_self _ _) (by simpa using he)
      simp only [List.cons_append]
      simp [collectMatches, he, Nat.not_le.2 hlt]
      exact ih (fun z hz => hpre z (List.mem_cons_of_mem _ hz)) hx hxc

/-- Claim C4 counterexample: a match call with `earlyReturn` set and
`top_n = 0`.  Enumeration stops at template `X`, whose confidence 1 meets
threshold 1, but `matches.slice(0, 0)` is empty: the result does not
contain that template, so the claim's "the result contains exactly that
template", quantified over every match call, is false on the code. -/
theorem C4_counterexample :
    1 ≤ goodMatchesCount [qZero, qHundred] matX ∧
    (matchEquipment fsMissing tfXY [qZero, qHundred] "weapon/main" 1 0
      true).result = [] := by
  exact ⟨by decide, by decide⟩

/-- Claim C4 (amended): with `earlyReturn` set, template enumeration
stops at the first template (in enumeration order) with a non-empty
reference set whose confidence meets the threshold: the result is
computed from that template alone — the statement holds for every
continuation `post`, so no later template affects the result even if it
would have higher confidence — and, provided `top_n ≥ 1`, the result
contains exactly that template. -/
theorem C4_early_exit (fs : FS) (tf : TF) (q : Mat) (ty : String)
    (thr topn : Nat) (pre post : List (String × Mat)) (x : String × Mat)
    (hq : q ≠ []) (htop : 0 < topn)
    (htf : alookup tf ty = some (pre ++ x :: post))
    (hpre : ∀ e ∈ pre, ¬e.2.isEmpty → goodMatchesCount q e.2 < thr)
    (hx : ¬x.2.isEmpty) (hxc : thr ≤ goodMatchesCount q x.2) :
    (matchEquipment fs tf q ty thr topn true).result =
      [⟨x.1, goodMatchesCount q x.2⟩] := by
  have hne : (pre ++ x :: post).isEmpty = false := by
    cases pre <;> rfl
  have hEm : isEmptyAt tf ty = false := by simp [isEmptyAt, htf, hne]
  have hls : loadedState fs tf ty = (tf, 0) := by simp [loadedState, hEm]
  have hqe : q.isEmpty = false := by
    cases q with
    | nil => exact absurd rfl hq
    | cons a as => rfl
  have hcoll := collect_early q thr x post pre hpre hx hxc
  obtain ⟨n, rfl⟩ : ∃ n, topn = n + 1 :=
    ⟨topn - 1, by omega⟩
  simp [matchEquipment, hls, hEm, hqe, htf, hcoll, sortDesc, insertDesc]

/-- Claim C4 witness: templates enumerated `[X (confidence 1),
Y (confidence 2)]` with threshold 1 and `earlyReturn` set: the result is
exactly `X`, although `Y` would outrank it. -/
theorem C4_witness :
    (matchEquipment fsMissing tfXY [qZero, qHundred] "weapon/main" 1 3
      true).result =
      [⟨"X", goodMatchesCount [qZero, qHundred] matX⟩] ∧
    goodMatchesCount [qZero, qHundred] matX = 1 ∧
    goodMatchesCount [qZero, qHundred] matY = 2 := by
  refine ⟨C4_early_exit fsMissing tfXY [qZero, qHundred] "weapon/main" 1 3
    [] [("Y", matY)] ("X", matX) (by decide) (by decide) (by decide)
    (by intro e he; simp at he) (by decide) (by decide), by decide,
    by decide⟩

/-! ### Claim C8: per-entry failures are local to the entry -/

/-- Claim C8: for a present artifact with equal-length parallel fields
and (spec §3: template names are unique within a category) distinct
names, the loaded entry set is exactly the per-entry filter of the
`(name, blob)` pairs: an entry whose blob is falsy, fails to deserialize,
or deserializes to an empty collection is omitted, and every other entry
is present — the load never aborts. -/
theorem C8_per_entry (fs : FS) (tf : TF) (ty : String)
    (names : List String) (blobs : List Blob)
    (hE : isEmptyAt tf ty = true)
    (hart : fs (cacheFileName ty) =
      ArtifactFile.parsed (some names) (some blobs))
    (hlen : names.length = blobs.length)
    (hnd : names.Nodup) :
    alookup (loadFeaturesFromCache fs tf ty).1 ty =
      some (loadedSpec (names.zip blobs)) := by
  unfold loadFeaturesFromCache
  rw [hE]
  simp only [if_true]
  rw [hart]
  have hlfa : loadFromArtifact (ArtifactFile.parsed (some names) (some blobs))
      (ensureEntry tf ty) ty =
      aset (ensureEntry tf ty) ty
        (loadLoop ((alookup (ensureEntry tf ty) ty).getD [])
          (names.zip blobs)) := by
    simp [loadFromArtifact, hlen]
  rw [hlfa]
  have hacc : (alookup (ensureEntry tf ty) ty).getD [] = [] := by
    rw [alookup_ensureEntry tf ty hE]
    rfl
  rw [hacc]
  have hmap : ((names.zip blobs).map Prod.fst).Nodup := by
    rw [List.map_fst_zip names blobs (le_of_eq hlen)]
    exact hnd
  rw [loadLoop_acc (names.zip blobs) [] (fun nb _ => rfl) hmap]
  simp [alookup_aset_self]

/-- A `chara` artifact exercising every per-entry failure: a good entry,
a blob of invalid length, a blob decoding to an empty collection, a falsy
blob, and another good entry. -/
def fsEntries : FS := fun f =>
  if f = "chara_features.json" then
    ArtifactFile.parsed (some ["a", "bad", "empty", "nul", "b"])
      (some [some (List.replicate 32 1), some [1, 2], some [], none,
        some (List.replicate 32 2)])
  else ArtifactFile.missing

/-- Claim C8 witness: of the five entries above, exactly the two good
ones are loaded, in order. -/
theorem C8_witness :
    alookup (loadFeaturesFromCache fsEntries initialTemplateFeatures
      "chara").1 "chara" =
      some [("a", [List.replicate 32 1]), ("b", [List.replicate 32 2])] := by
  rw [C8_per_entry fsEntries initialTemplateFeatures "chara"
    ["a", "bad", "empty", "nul", "b"]
    [some (List.replicate 32 1), some [1, 2], some [], none,
      some (List.replicate 32 2)]
    (by decide) rfl (by decide) (by decide)]
  decide

/-! ### Claim C9: concurrent first-use loads -/

/-- Blob store with a single well-formed one-template `chara` artifact. -/
def fsOneChara : FS := fun f =>
  if f = "chara_features.json" then
    ArtifactFile.parsed (some ["T"]) (some [some (List.replicate 32 1)])
  else ArtifactFile.missing

/-- Claim C9 evaluation at the failing schedule: two callers trigger a
first-use load of the never-loaded `chara` category concurrently.  Under
the interleaving in which both callers run their synchronous loaded-check
(lines 61–64) before either's awaited artifact read (lines 77–78)
completes, TWO artifact reads are issued — the code has no per-category
mutual exclusion, so the claim's "exactly one artifact read" fails.
Both callers do finish and observe the loaded entries, and the fully
sequential schedule issues only one read. -/
theorem C9_eval :
    (runSched fsOneChara "chara" [true, false, true, false]
      ⟨initialTemplateFeatures, 0, .idle, .idle⟩).reads = 2 ∧
    (runSched fsOneChara "chara" [true, false, true, false]
      ⟨initialTemplateFeatures, 0, .idle, .idle⟩).p1 = .finished ∧
    (runSched fsOneChara "chara" [true, false, true, false]
      ⟨initialTemplateFeatures, 0, .idle, .idle⟩).p2 = .finished ∧
    alookup (runSched fsOneChara "chara" [true, false, true, false]
      ⟨initialTemplateFeatures, 0, .idle, .idle⟩).tf "chara" =
      some [("T", [List.replicate 32 1])] ∧
    (runSched fsOneChara "chara" [true, true, false]
      ⟨initialTemplateFeatures, 0, .idle, .idle⟩).reads = 1 := by
  refine ⟨by decide, by decide, by decide, by decide, by decide⟩

/-! ### Claim C10: categories outside the initial map -/

/-- Claim C10: a category string absent from the initially configured
`templateFeatures` map (such as "priority/weapon/main", which has a
request route but no initial cache entry) does not make `matchEquipment`
fail: the entry object is created on first use, exactly one artifact read
is attempted (from `<category>_features.json`), the call behaves exactly
as if the category had been configured with an empty entry object, and
the result is `[]` when the load yielded no entries. -/
theorem C10_unconfigured_category (fs : FS) (ty : String) (q : Mat)
    (thr topn : Nat) (early : Bool)
    (h : alookup initialTemplateFeatures ty = none) :
    (matchEquipment fs initialTemplateFeatures q ty thr topn early).reads =
      1 ∧
    matchEquipment fs initialTemplateFeatures q ty thr topn early =
      matchEquipment fs (aset initialTemplateFeatures ty []) q ty thr topn
        early ∧
    (isEmptyAt (loadFeaturesFromCache fs initialTemplateFeatures ty).1 ty =
        true →
      (matchEquipment fs initialTemplateFeatures q ty thr topn
        early).result = []) := by
  have hE : isEmptyAt initialTemplateFeatures ty = true := by
    simp [isEmptyAt, h]
  have hE' : isEmptyAt (aset initialTemplateFeatures ty []) ty = true := by
    simp [isEmptyAt, alookup_aset_self]
  have hee : ensureEntry initialTemplateFeatures ty =
      aset initialTemplateFeatures ty [] := by
    simp [ensureEntry, h]
  have hee' : ensureEntry (aset initialTemplateFeatures ty []) ty =
      aset initialTemplateFeatures ty [] := by
    simp [ensureEntry, alookup_aset_self]
  have hload : loadFeaturesFromCache fs initialTemplateFeatures ty =
      loadFeaturesFromCache fs (aset initialTemplateFeatures ty []) ty := by
    simp [loadFeaturesFromCache, hE, hE', hee, hee']
  have hls : loadedState fs initialTemplateFeatures ty =
      loadedState fs (aset initialTemplateFeatures ty []) ty := by
    simp [loadedState, hE, hE', hload]
  refine ⟨?_, ?_, ?_⟩
  · have hr : (loadedState fs initialTemplateFeatures ty).2 = 1 := by
      simp only [loadedState, hE, if_true]
      exact load_reads_one fs _ ty hE
    unfold matchEquipment
    by_cases hc : isEmptyAt (loadedState fs initialTemplateFeatures ty).1 ty
    · simp [hc, hr]
    · by_cases hq : q.isEmpty <;> simp [hc, hq, hr]
  · unfold matchEquipment
    rw [hls]
  · intro hem
    have hc : isEmptyAt (loadedState fs initialTemplateFeatures ty).1 ty =
        true := by
      simpa [loadedState, hE] using hem
    simp [matchEquipment, hc]

/-- Claim C10 witness: matching against "priority/weapon/main" (which has
no artifact in `fsMissing`) performs the one artifact read and returns
`[]` instead of failing. -/
theorem C10_witness :
    (matchEquipment fsMissing initialTemplateFeatures [qZero]
      "priority/weapon/main" 10 3 false).reads = 1 ∧
    (matchEquipment fsMissing initialTemplateFeatures [qZero]
      "priority/weapon/main" 10 3 false).result = [] := by
  have h := C10_unconfigured_category fsMissing "priority/weapon/main"
    [qZero] 10 3 false (by decide)
  exact ⟨h.1, h.2.2 (by decide)⟩

end DetectEquipment
